import Mathlib

/-!
# Placement driver: connection handler and leader campaign

A shallow embedding of `server/conn.go`, `server/command.go` and
`server/leader.go`.  Protobuf messages are records whose optional fields are
`Option`s (a nil pointer or nil slice is `none`), Go errors are values of
`Err`, and the collaborators that live outside these three files (the TSO,
the id allocator, the raft cluster, etcd) are fields of an environment
record that is threaded through explicitly together with a call log.
-/

namespace PD

/-! ## Errors (`github.com/juju/errors`) -/

/-- Go error values as they are built in the three files. -/
inductive Err where
  /-- Result of `errors.New` and `errors.Errorf`; the text is the format string. -/
  | new (text : String)
  /-- The package level value `errClusterNotBootstrapped`. -/
  | clusterNotBootstrapped
  /-- An error produced by a collaborator outside the embedded files. -/
  | ext (code : Nat)
  /-- Result of `errors.Trace` applied to a non-nil error. -/
  | trace (inner : Err)
  deriving DecidableEq, Repr

/-- The underlying error below any number of `errors.Trace` wrappers (`errors.Cause`). -/
def Err.cause : Err → Err
  | .trace e => e.cause
  | e => e

/-- The text returned by the `Error()` method; `errors.Trace` keeps the text. -/
def Err.Error : Err → String
  | .new t => t
  | .clusterNotBootstrapped => "cluster is not bootstrapped"
  | .ext c => "external error " ++ toString c
  | .trace e => e.Error

/-! ## Messages (`pdpb`, `metapb`) -/

/-- Modelled from the spec: the `pdpb.CommandType` enumeration, whose declaration
is not part of the source tree.  The members are the command types listed for the
wire protocol, the two unified ones (`GetMeta`, `PutMeta`) that `handleRequest`
names, and the zero value returned by the getter for an absent field. -/
inductive CommandType where
  | Invalid
  | Tso
  | AllocId
  | IsBootstrapped
  | Bootstrap
  | GetMeta
  | PutMeta
  | GetStore
  | GetRegion
  | GetClusterConfig
  | PutClusterConfig
  | PutStore
  | AskChangePeer
  | AskSplit
  deriving DecidableEq, Repr

/-- A `metapb.Store`; the handlers pass it through without looking inside. -/
structure Store where
  Id : Nat
  deriving DecidableEq, Repr

/-- A `metapb.Region`; the handlers pass it through without looking inside. -/
structure Region where
  Id : Nat
  deriving DecidableEq, Repr

/-- A `metapb.Cluster`; the handlers pass it through without looking inside. -/
structure Cluster where
  Id : Nat
  deriving DecidableEq, Repr

/-- A `pdpb.Timestamp`. -/
structure Timestamp where
  Physical : Int
  Logical : Int
  deriving DecidableEq, Repr

/-- Lexicographic order on timestamps. -/
def Timestamp.lt (a b : Timestamp) : Prop :=
  a.Physical < b.Physical ∨ (a.Physical = b.Physical ∧ a.Logical < b.Logical)

instance (a b : Timestamp) : Decidable (Timestamp.lt a b) := by
  unfold Timestamp.lt
  exact inferInstance

structure RequestHeader where
  Uuid : Option (List Nat) := none
  ClusterId : Option Nat := none
  deriving DecidableEq, Repr

structure ResponseHeader where
  Uuid : Option (List Nat) := none
  ClusterId : Option Nat := none
  deriving DecidableEq, Repr

structure TsoRequest where
  Number : Option Nat := none
  deriving DecidableEq, Repr

structure AllocIdRequest where
  deriving DecidableEq, Repr

structure IsBootstrappedRequest where
  deriving DecidableEq, Repr

structure BootstrapRequest where
  Store : Option Store := none
  Region : Option Region := none
  deriving DecidableEq, Repr

structure GetStoreRequest where
  StoreId : Option Nat := none
  deriving DecidableEq, Repr

structure GetRegionRequest where
  RegionKey : Option (List Nat) := none
  deriving DecidableEq, Repr

structure GetClusterConfigRequest where
  deriving DecidableEq, Repr

structure PutClusterConfigRequest where
  Cluster : Option Cluster := none
  deriving DecidableEq, Repr

structure PutStoreRequest where
  Store : Option Store := none
  deriving DecidableEq, Repr

structure AskChangePeerRequest where
  Region : Option Region := none
  LeaderStoreId : Option Nat := none
  deriving DecidableEq, Repr

structure AskSplitRequest where
  Region : Option Region := none
  LeaderStoreId : Option Nat := none
  SplitKey : Option (List Nat) := none
  deriving DecidableEq, Repr

/-- A `pdpb.Request`. -/
structure Request where
  Header : Option RequestHeader := none
  CmdType : Option CommandType := none
  Tso : Option TsoRequest := none
  AllocId : Option AllocIdRequest := none
  IsBootstrapped : Option IsBootstrappedRequest := none
  Bootstrap : Option BootstrapRequest := none
  GetStore : Option GetStoreRequest := none
  GetRegion : Option GetRegionRequest := none
  GetClusterConfig : Option GetClusterConfigRequest := none
  PutClusterConfig : Option PutClusterConfigRequest := none
  PutStore : Option PutStoreRequest := none
  AskChangePeer : Option AskChangePeerRequest := none
  AskSplit : Option AskSplitRequest := none
  deriving DecidableEq, Repr

structure ErrorBody where
  Message : Option String := none
  deriving DecidableEq, Repr

structure TsoResponse where
  Timestamps : List Timestamp := []
  deriving DecidableEq, Repr

structure AllocIdResponse where
  Id : Option Nat := none
  deriving DecidableEq, Repr

structure IsBootstrappedResponse where
  Bootstrapped : Option Bool := none
  deriving DecidableEq, Repr

structure BootstrapResponse where
  deriving DecidableEq, Repr

structure GetStoreResponse where
  Store : Option Store := none
  deriving DecidableEq, Repr

structure GetRegionResponse where
  Region : Option Region := none
  deriving DecidableEq, Repr

structure GetClusterConfigResponse where
  Cluster : Option Cluster := none
  deriving DecidableEq, Repr

structure PutClusterConfigResponse where
  deriving DecidableEq, Repr

structure PutStoreResponse where
  deriving DecidableEq, Repr

structure AskChangePeerResponse where
  deriving DecidableEq, Repr

structure AskSplitResponse where
  deriving DecidableEq, Repr

/-- A `pdpb.Response`. -/
structure Response where
  Header : Option ResponseHeader := none
  CmdType : Option CommandType := none
  Error : Option ErrorBody := none
  Tso : Option TsoResponse := none
  AllocId : Option AllocIdResponse := none
  IsBootstrapped : Option IsBootstrappedResponse := none
  Bootstrap : Option BootstrapResponse := none
  GetStore : Option GetStoreResponse := none
  GetRegion : Option GetRegionResponse := none
  GetClusterConfig : Option GetClusterConfigResponse := none
  PutClusterConfig : Option PutClusterConfigResponse := none
  PutStore : Option PutStoreResponse := none
  AskChangePeer : Option AskChangePeerResponse := none
  AskSplit : Option AskSplitResponse := none
  deriving DecidableEq, Repr

/-! ### Generated getters: an absent message or field reads as the default -/

def Request.GetCmdType (req : Request) : CommandType :=
  req.CmdType.getD CommandType.Invalid

def Request.GetUuid (req : Request) : Option (List Nat) :=
  match req.Header with
  | none => none
  | some h => h.Uuid

def Request.GetClusterId (req : Request) : Nat :=
  match req.Header with
  | none => 0
  | some h => h.ClusterId.getD 0

def Response.GetUuid (resp : Response) : Option (List Nat) :=
  match resp.Header with
  | none => none
  | some h => h.Uuid

def Response.GetClusterId (resp : Response) : Nat :=
  match resp.Header with
  | none => 0
  | some h => h.ClusterId.getD 0

def TsoRequest.GetNumber (r : TsoRequest) : Nat :=
  r.Number.getD 0

def GetStoreRequest.GetStoreId (r : GetStoreRequest) : Nat :=
  r.StoreId.getD 0

/-- Getter on a possibly nil `*AskChangePeerRequest`. -/
def AskChangePeerGetRegion (r : Option AskChangePeerRequest) : Option Region :=
  match r with
  | none => none
  | some x => x.Region

/-- Getter on a possibly nil `*AskChangePeerRequest`. -/
def AskChangePeerGetLeaderStoreId (r : Option AskChangePeerRequest) : Nat :=
  match r with
  | none => 0
  | some x => x.LeaderStoreId.getD 0

/-- Getter on a possibly nil `*AskSplitRequest`. -/
def AskSplitGetRegion (r : Option AskSplitRequest) : Option Region :=
  match r with
  | none => none
  | some x => x.Region

/-- Getter on a possibly nil `*AskSplitRequest`. -/
def AskSplitGetLeaderStoreId (r : Option AskSplitRequest) : Nat :=
  match r with
  | none => 0
  | some x => x.LeaderStoreId.getD 0

/-- Getter on a possibly nil `*AskSplitRequest`. -/
def AskSplitGetSplitKey (r : Option AskSplitRequest) : Option (List Nat) :=
  match r with
  | none => none
  | some x => x.SplitKey

/-! ## `conn.go`: `updateResponse` -/

/-- The function `updateResponse` of `conn.go`; the updated response is returned. -/
def updateResponse (req : Request) (resp : Response) : Response :=
  let resp := { resp with CmdType := req.CmdType }
  match req.Header with
  | none => resp
  | some h =>
    let hdr : ResponseHeader :=
      match resp.Header with
      | none => {}
      | some rh => rh
    { resp with Header := some { hdr with Uuid := h.Uuid, ClusterId := h.ClusterId } }

/-! ## Collaborators of the connection handler -/

/-- A non-nil `*raftCluster`. -/
structure RaftCluster where
  Id : Nat
  deriving DecidableEq, Repr

/-- Calls that leave the three embedded files, in the order they are made. -/
inductive Call where
  | getRespTS
  | idAllocAlloc
  | getRaftCluster
  | bootstrapCluster
  | clusterGetStore
  | clusterGetRegion
  | clusterGetMeta
  | clusterPutMeta
  | clusterPutStore
  | clusterHandleAskChangePeer
  | clusterHandleAskSplit
  | handleGetMeta
  | handlePutMeta
  deriving DecidableEq, Repr

/-- What a handler returns: the Go pair `(*pdpb.Response, error)`, the server
state afterwards and the collaborator calls it made. -/
structure HResult (σ : Type) where
  resp : Option Response
  err : Option Err
  st : σ
  calls : List Call

/-- The server side collaborators, over an arbitrary server state `σ`.
`handleGetMeta` and `handlePutMeta` are named by `handleRequest` but their
bodies are commented out in `command.go`, so they are taken as parameters,
as is `NewBootstrappedError`. -/
structure Env (σ : Type) where
  getRespTS : σ → Option Timestamp × σ
  idAllocAlloc : σ → (Nat × Option Err) × σ
  getRaftCluster : σ → (Option RaftCluster × Option Err) × σ
  bootstrapCluster : BootstrapRequest → σ → (Option Response × Option Err) × σ
  clusterGetStore : RaftCluster → Nat → σ → (Option Store × Option Err) × σ
  clusterGetRegion : RaftCluster → Option (List Nat) → σ → (Option Region × Option Err) × σ
  clusterGetMeta : RaftCluster → σ → (Option Cluster × Option Err) × σ
  clusterPutMeta : RaftCluster → Option Cluster → σ → Option Err × σ
  clusterPutStore : RaftCluster → Option Store → σ → Option Err × σ
  clusterHandleAskChangePeer : RaftCluster → Option AskChangePeerRequest → σ → Option Err × σ
  clusterHandleAskSplit : RaftCluster → Option AskSplitRequest → σ → Option Err × σ
  NewBootstrappedError : Response
  handleGetMeta : Request → σ → Option Response × Option Err × σ
  handlePutMeta : Request → σ → Option Response × Option Err × σ

/-- Modelled from the spec: `NewError`, which is not part of the source tree;
a dispatch error surfaces as a response message carrying an error body. -/
def NewError (err : Err) : Response :=
  { Error := some { Message := some err.Error } }

/-! ## `command.go` -/

variable {σ : Type}

/-- The loop of `handleTso`: `k` iterations remain, `acc` is `tso.Timestamps`. -/
def tsoLoop (env : Env σ) : Nat → List Timestamp → σ → List Call →
    Option (List Timestamp) × σ × List Call
  | 0, acc, s, cs => (some acc, s, cs)
  | k + 1, acc, s, cs =>
    match env.getRespTS s with
    | (none, s1) => (none, s1, cs ++ [Call.getRespTS])
    | (some ts, s1) => tsoLoop env k (acc ++ [ts]) s1 (cs ++ [Call.getRespTS])

def handleTso (env : Env σ) (req : Request) (s : σ) : HResult σ :=
  match req.Tso with
  | none => ⟨none, some (Err.new "invalid tso command, but %v"), s, []⟩
  | some request =>
    let count := request.GetNumber
    match tsoLoop env count [] s [] with
    | (none, s1, cs) => ⟨none, some (Err.new "can not get timestamp"), s1, cs⟩
    | (some tss, s1, cs) => ⟨some { Tso := some { Timestamps := tss } }, none, s1, cs⟩

def handleAllocID (env : Env σ) (req : Request) (s : σ) : HResult σ :=
  match req.AllocId with
  | none => ⟨none, some (Err.new "invalid alloc id command, but %v"), s, []⟩
  | some _ =>
    match env.idAllocAlloc s with
    | ((_, some err), s1) => ⟨none, some (Err.trace err), s1, [Call.idAllocAlloc]⟩
    | ((id, none), s1) =>
      ⟨some { AllocId := some { Id := some id } }, none, s1, [Call.idAllocAlloc]⟩

def handleIsBootstrapped (env : Env σ) (req : Request) (s : σ) : HResult σ :=
  match req.IsBootstrapped with
  | none => ⟨none, some (Err.new "invalid is bootstrapped command, but %v"), s, []⟩
  | some _ =>
    match env.getRaftCluster s with
    | ((_, some err), s1) => ⟨none, some (Err.trace err), s1, [Call.getRaftCluster]⟩
    | ((cluster, none), s1) =>
      ⟨some { IsBootstrapped := some { Bootstrapped := some cluster.isSome } }, none, s1,
        [Call.getRaftCluster]⟩

def handleBootstrap (env : Env σ) (req : Request) (s : σ) : HResult σ :=
  match req.Bootstrap with
  | none => ⟨none, some (Err.new "invalid bootstrap command, but %v"), s, []⟩
  | some request =>
    match env.getRaftCluster s with
    | ((_, some err), s1) => ⟨none, some (Err.trace err), s1, [Call.getRaftCluster]⟩
    | ((some _, none), s1) => ⟨some env.NewBootstrappedError, none, s1, [Call.getRaftCluster]⟩
    | ((none, none), s1) =>
      match env.bootstrapCluster request s1 with
      | ((resp, err), s2) => ⟨resp, err, s2, [Call.getRaftCluster, Call.bootstrapCluster]⟩

/-- The method `conn.getRaftCluster`: a missing cluster becomes an error. -/
def connGetRaftCluster (env : Env σ) (s : σ) : Except Err RaftCluster × σ :=
  match env.getRaftCluster s with
  | ((_, some err), s1) => (.error (Err.trace err), s1)
  | ((none, none), s1) => (.error (Err.trace Err.clusterNotBootstrapped), s1)
  | ((some cluster, none), s1) => (.ok cluster, s1)

def handleGetStore (env : Env σ) (req : Request) (s : σ) : HResult σ :=
  match req.GetStore with
  | none => ⟨none, some (Err.new "invalid get store command, but %v"), s, []⟩
  | some request =>
    match connGetRaftCluster env s with
    | (.error err, s1) => ⟨none, some (Err.trace err), s1, [Call.getRaftCluster]⟩
    | (.ok cluster, s1) =>
      let storeID := request.GetStoreId
      match env.clusterGetStore cluster storeID s1 with
      | ((_, some err), s2) =>
        ⟨none, some (Err.trace err), s2, [Call.getRaftCluster, Call.clusterGetStore]⟩
      | ((store, none), s2) =>
        ⟨some { GetStore := some { Store := store } }, none, s2,
          [Call.getRaftCluster, Call.clusterGetStore]⟩

def handleGetRegion (env : Env σ) (req : Request) (s : σ) : HResult σ :=
  match req.GetRegion with
  | none => ⟨none, some (Err.new "invalid get meta command, but %v"), s, []⟩
  | some request =>
    match connGetRaftCluster env s with
    | (.error err, s1) => ⟨none, some (Err.trace err), s1, [Call.getRaftCluster]⟩
    | (.ok cluster, s1) =>
      let key := request.RegionKey
      match env.clusterGetRegion cluster key s1 with
      | ((_, some err), s2) =>
        ⟨none, some (Err.trace err), s2, [Call.getRaftCluster, Call.clusterGetRegion]⟩
      | ((region, none), s2) =>
        ⟨some { GetRegion := some { Region := region } }, none, s2,
          [Call.getRaftCluster, Call.clusterGetRegion]⟩

def handleGetClusterConfig (env : Env σ) (req : Request) (s : σ) : HResult σ :=
  match req.GetClusterConfig with
  | none => ⟨none, some (Err.new "invalid get meta command, but %v"), s, []⟩
  | some _ =>
    match connGetRaftCluster env s with
    | (.error err, s1) => ⟨none, some (Err.trace err), s1, [Call.getRaftCluster]⟩
    | (.ok cluster, s1) =>
      match env.clusterGetMeta cluster s1 with
      | ((_, some err), s2) =>
        ⟨none, some (Err.trace err), s2, [Call.getRaftCluster, Call.clusterGetMeta]⟩
      | ((meta, none), s2) =>
        ⟨some { GetClusterConfig := some { Cluster := meta } }, none, s2,
          [Call.getRaftCluster, Call.clusterGetMeta]⟩

def handlePutClusterConfig (env : Env σ) (req : Request) (s : σ) : HResult σ :=
  match req.PutClusterConfig with
  | none => ⟨none, some (Err.new "invalid get meta command, but %v"), s, []⟩
  | some request =>
    match connGetRaftCluster env s with
    | (.error err, s1) => ⟨none, some (Err.trace err), s1, [Call.getRaftCluster]⟩
    | (.ok cluster, s1) =>
      let meta := request.Cluster
      match env.clusterPutMeta cluster meta s1 with
      | (some err, s2) =>
        ⟨none, some (Err.trace err), s2, [Call.getRaftCluster, Call.clusterPutMeta]⟩
      | (none, s2) =>
        ⟨some { PutClusterConfig := some {} }, none, s2,
          [Call.getRaftCluster, Call.clusterPutMeta]⟩

def handlePutStore (env : Env σ) (req : Request) (s : σ) : HResult σ :=
  match req.PutStore with
  | none => ⟨none, some (Err.new "invalid put meta command, but %v"), s, []⟩
  | some request =>
    let store := request.Store
    match connGetRaftCluster env s with
    | (.error err, s1) => ⟨none, some (Err.trace err), s1, [Call.getRaftCluster]⟩
    | (.ok cluster, s1) =>
      match env.clusterPutStore cluster store s1 with
      | (some err, s2) =>
        ⟨none, some (Err.trace err), s2, [Call.getRaftCluster, Call.clusterPutStore]⟩
      | (none, s2) =>
        ⟨some { PutStore := some {} }, none, s2, [Call.getRaftCluster, Call.clusterPutStore]⟩

def handleAskChangePeer (env : Env σ) (req : Request) (s : σ) : HResult σ :=
  let request := req.AskChangePeer
  if AskChangePeerGetRegion request = none then
    ⟨none, some (Err.new "missing region for changing peer"), s, []⟩
  else if AskChangePeerGetLeaderStoreId request = 0 then
    ⟨none, some (Err.new "missing leader for changing peer"), s, []⟩
  else
    match connGetRaftCluster env s with
    | (.error err, s1) => ⟨none, some (Err.trace err), s1, [Call.getRaftCluster]⟩
    | (.ok cluster, s1) =>
      match env.clusterHandleAskChangePeer cluster request s1 with
      | (some err, s2) =>
        ⟨none, some (Err.trace err), s2, [Call.getRaftCluster, Call.clusterHandleAskChangePeer]⟩
      | (none, s2) =>
        ⟨some { AskChangePeer := some {} }, none, s2,
          [Call.getRaftCluster, Call.clusterHandleAskChangePeer]⟩

def handleAskSplit (env : Env σ) (req : Request) (s : σ) : HResult σ :=
  let request := req.AskSplit
  if AskSplitGetRegion request = none then
    ⟨none, some (Err.new "missing region for split"), s, []⟩
  else if AskSplitGetLeaderStoreId request = 0 then
    ⟨none, some (Err.new "missing leader for split"), s, []⟩
  else if AskSplitGetSplitKey request = none then
    ⟨none, some (Err.new "missing split key for split"), s, []⟩
  else
    match connGetRaftCluster env s with
    | (.error err, s1) => ⟨none, some (Err.trace err), s1, [Call.getRaftCluster]⟩
    | (.ok cluster, s1) =>
      match env.clusterHandleAskSplit cluster request s1 with
      | (some err, s2) =>
        ⟨none, some (Err.trace err), s2, [Call.getRaftCluster, Call.clusterHandleAskSplit]⟩
      | (none, s2) =>
        ⟨some { AskSplit := some {} }, none, s2,
          [Call.getRaftCluster, Call.clusterHandleAskSplit]⟩

/-! ## `conn.go`: dispatch and the connection loop -/

/-- The handler a command type is routed to by the `switch` of `handleRequest`. -/
inductive Handler where
  | handleTso
  | handleAllocID
  | handleBootstrap
  | handleIsBootstrapped
  | handleGetMeta
  | handlePutMeta
  | handleGetStore
  | handleGetRegion
  | handleGetClusterConfig
  | handlePutClusterConfig
  | handlePutStore
  | handleAskChangePeer
  | handleAskSplit
  deriving DecidableEq, Repr

/-- The `case` labels of the `switch` in `handleRequest`; `none` is `default`. -/
def dispatch : CommandType → Option Handler
  | .Tso => some .handleTso
  | .AllocId => some .handleAllocID
  | .Bootstrap => some .handleBootstrap
  | .IsBootstrapped => some .handleIsBootstrapped
  | .GetMeta => some .handleGetMeta
  | .PutMeta => some .handlePutMeta
  | .AskChangePeer => some .handleAskChangePeer
  | .AskSplit => some .handleAskSplit
  | _ => none

/-- Running one handler of `command.go` (or one of the two taken as parameters). -/
def runHandler (env : Env σ) (h : Handler) (req : Request) (s : σ) : HResult σ :=
  match h with
  | .handleTso => handleTso env req s
  | .handleAllocID => handleAllocID env req s
  | .handleBootstrap => handleBootstrap env req s
  | .handleIsBootstrapped => handleIsBootstrapped env req s
  | .handleGetMeta =>
    match env.handleGetMeta req s with
    | (resp, err, s1) => ⟨resp, err, s1, [Call.handleGetMeta]⟩
  | .handlePutMeta =>
    match env.handlePutMeta req s with
    | (resp, err, s1) => ⟨resp, err, s1, [Call.handlePutMeta]⟩
  | .handleGetStore => handleGetStore env req s
  | .handleGetRegion => handleGetRegion env req s
  | .handleGetClusterConfig => handleGetClusterConfig env req s
  | .handlePutClusterConfig => handlePutClusterConfig env req s
  | .handlePutStore => handlePutStore env req s
  | .handleAskChangePeer => handleAskChangePeer env req s
  | .handleAskSplit => handleAskSplit env req s

def handleRequest (env : Env σ) (req : Request) (s : σ) : HResult σ :=
  match dispatch req.GetCmdType with
  | some h => runHandler env h req s
  | none => ⟨none, some (Err.new "unsupported command %s"), s, []⟩

/-- One turn of the loop of `conn.run` as seen from the transport: what
`util.ReadMessage` returns, and the errors of `util.WriteMessage` and of `Flush`
should the turn get that far. -/
structure Turn where
  read : Except Err (Nat × Request)
  writeErr : Option Err := none
  flushErr : Option Err := none

/-- Why `conn.run` returned. -/
inductive Exit where
  | readFailed
  | writeFailed
  | flushFailed
  deriving DecidableEq, Repr

/-- Result of `conn.run` on a finite transport script: `exit = none` means the
script ended with the loop still waiting in `ReadMessage`; `written` lists the
`WriteMessage` calls as `(msgID, response)`. -/
structure RunResult (σ : Type) where
  exit : Option Exit
  written : List (Nat × Response)
  st : σ

/-- The loop of `conn.run`. -/
def run (env : Env σ) : List Turn → σ → RunResult σ
  | [], s => ⟨none, [], s⟩
  | t :: rest, s =>
    match t.read with
    | .error _ => ⟨some .readFailed, [], s⟩
    | .ok (msgID, request) =>
      let r := handleRequest env request s
      let response :=
        match r.err with
        | some err => some (NewError err)
        | none => r.resp
      match response with
      | none => run env rest r.st
      | some response =>
        let response := updateResponse request response
        match t.writeErr with
        | some _ => ⟨some .writeFailed, [(msgID, response)], r.st⟩
        | none =>
          match t.flushErr with
          | some _ => ⟨some .flushFailed, [(msgID, response)], r.st⟩
          | none =>
            let o := run env rest r.st
            ⟨o.exit, (msgID, response) :: o.written, o.st⟩

/-! ## `leader.go` -/

/-- What the server does that is visible outside `leader.go`, in program order.
Calls that can fail carry their outcome. -/
inductive Event where
  /-- The call `atomic.StoreInt64(&s.isLeader, value)`. -/
  | storeIsLeader (value : Int)
  | closeAllConnections
  | closeClusters
  /-- The call `lessor.Create`; `ok` is false when it returned an error. -/
  | lessorCreate (ok : Bool)
  /-- Commit of the transaction "if CreateRevision(leaderKey) = 0 then put leaderKey
  with the lease"; `none` is an error, `some b` is `resp.Succeeded = b`. -/
  | txnCommit (succeeded : Option Bool)
  | lessorKeepAlive (ok : Bool)
  | syncTimestamp (ok : Bool)
  | newTicker
  | tickerStop
  /-- A receive on the keep-alive channel; `ok` is false when it is closed. -/
  | recvKeepAlive (ok : Bool)
  | updateTimestamp (ok : Bool)
  | lessorClose
  | wgDone
  | watchLeader
  deriving DecidableEq, Repr

/-- The part of `Server` that `leader.go` writes, with the log of events so far. -/
structure Server where
  isLeader : Int := 0
  log : List Event := []
  deriving DecidableEq, Repr

def Server.emit (s : Server) (e : Event) : Server :=
  { s with log := s.log ++ [e] }

/-- The method `IsLeader`. -/
def Server.IsLeader (s : Server) : Bool :=
  s.isLeader == 1

def closeAllConnections (s : Server) : Server :=
  s.emit Event.closeAllConnections

def closeClusters (s : Server) : Server :=
  s.emit Event.closeClusters

def enableLeader (b : Bool) (s : Server) : Server :=
  let value : Int := if b then 1 else 0
  let s := { s.emit (Event.storeIsLeader value) with isLeader := value }
  if !b then closeClusters (closeAllConnections s) else s

/-- What one `select` of the maintenance loop receives. -/
inductive Wake where
  /-- A receive from the keep-alive channel `ch`; `ok = false`: the channel is closed. -/
  | keepAlive (ok : Bool)
  /-- A tick of `tsTicker`, with the error of the `updateTimestamp` it triggers. -/
  | tick (err : Option Err)
  deriving DecidableEq, Repr

/-- The answers of etcd and of the TSO during one call of `campaignLeader`. -/
structure CampaignEnv where
  leaseCreateErr : Option Err := none
  /-- Commit result: an error, or `resp.Succeeded`. -/
  txn : Except Err Bool := .ok true
  keepAliveErr : Option Err := none
  syncTimestampErr : Option Err := none
  wakes : List Wake := []

/-- A call that either has returned `ret` or is still blocked when the script
of environment answers ends (`ret = none`). -/
structure CResult where
  ret : Option (Option Err)
  srv : Server

/-- The `for { select { ... } }` loop at the end of `campaignLeader`. -/
def maintain : List Wake → Server → CResult
  | [], s => ⟨none, s⟩
  | Wake.keepAlive ok :: rest, s =>
    let s := s.emit (Event.recvKeepAlive ok)
    if !ok then ⟨some none, s⟩ else maintain rest s
  | Wake.tick err :: rest, s =>
    let s := s.emit (Event.updateTimestamp err.isNone)
    match err with
    | some e => ⟨some (some (Err.trace e)), s⟩
    | none => maintain rest s

/-- The method `campaignLeader`; deferred calls are run, last registered first, on
every return path. -/
def campaignLeader (env : CampaignEnv) (s : Server) : CResult :=
  let s := s.emit (Event.lessorCreate env.leaseCreateErr.isNone)
  match env.leaseCreateErr with
  | some err => ⟨some (some (Err.trace err)), s.emit Event.lessorClose⟩
  | none =>
    match env.txn with
    | .error err =>
      ⟨some (some (Err.trace err)), (s.emit (Event.txnCommit none)).emit Event.lessorClose⟩
    | .ok false =>
      ⟨some (some (Err.new "campaign leader failed, other server may campaign ok")),
        (s.emit (Event.txnCommit (some false))).emit Event.lessorClose⟩
    | .ok true =>
      let s := s.emit (Event.txnCommit (some true))
      let s := enableLeader true s
      let s := s.emit (Event.lessorKeepAlive env.keepAliveErr.isNone)
      match env.keepAliveErr with
      | some err => ⟨some (some (Err.trace err)), (enableLeader false s).emit Event.lessorClose⟩
      | none =>
        let s := s.emit (Event.syncTimestamp env.syncTimestampErr.isNone)
        match env.syncTimestampErr with
        | some err =>
          ⟨some (some (Err.trace err)), (enableLeader false s).emit Event.lessorClose⟩
        | none =>
          let s := s.emit Event.newTicker
          let r := maintain env.wakes s
          match r.ret with
          | none => r
          | some e =>
            ⟨some e, (enableLeader false (r.srv.emit Event.tickerStop)).emit Event.lessorClose⟩

/-- A `pdpb.Leader`. -/
structure Leader where
  Addr : Option String := none
  Pid : Option Int := none
  deriving DecidableEq, Repr

/-- The answers of the environment during one turn of the loop of `leaderLoop`. -/
structure Round where
  isClosed : Bool := false
  getLeader : Option Leader × Option Err := (none, none)
  /-- Whether `watchLeader`, if called, comes back. -/
  watchLeaderReturns : Bool := true
  campaign : CampaignEnv := {}

/-- The method `leaderLoop`; the first component tells whether it returned. -/
def leaderLoop : List Round → Server → Bool × Server
  | [], s => (false, s)
  | r :: rest, s =>
    if r.isClosed then
      (true, enableLeader false (s.emit Event.wgDone))
    else
      let s := enableLeader false s
      match r.getLeader with
      | (_, some _) => leaderLoop rest s
      | (leader, none) =>
        let s := if leader.isSome then s.emit Event.watchLeader else s
        if leader.isSome && !r.watchLeaderReturns then
          (false, s)
        else
          let c := campaignLeader r.campaign s
          match c.ret with
          | none => (false, c.srv)
          | some _ => leaderLoop rest c.srv

/-! ## Specification vocabulary and concrete environments -/

/-- The results of `n` consecutive calls of `getRespTS` starting in state `s`,
in call order. -/
def callResults (env : Env σ) : Nat → σ → List (Option Timestamp)
  | 0, _ => []
  | n + 1, s => (env.getRespTS s).1 :: callResults env n (env.getRespTS s).2

/-- The handler outcome "not bootstrapped": no response, the error
`errClusterNotBootstrapped` (below the `errors.Trace` wrappers), and
`getRaftCluster` as the only call made. -/
def NotBootstrappedResult (r : HResult σ) : Prop :=
  r.resp = none ∧ (∃ e, r.err = some e ∧ e.cause = Err.clusterNotBootstrapped) ∧
    r.calls = [Call.getRaftCluster]

/-- The handler outcome "missing field": no response, an error made by
`errors.New`, the state untouched and no call made. -/
def MissingFieldResult (s : σ) (r : HResult σ) : Prop :=
  r.resp = none ∧ (∃ text, r.err = some (Err.new text)) ∧ r.st = s ∧ r.calls = []

/-- The outcome of the `default` branch of `handleRequest`. -/
def Unsupported (r : HResult σ) : Prop :=
  r.resp = none ∧ r.err = some (Err.new "unsupported command %s") ∧ r.calls = []

/-- A concrete environment over a counter: the TSO hands out `(100, n)` and
counts, the allocator hands out the counter, the raft cluster is `cluster`, and
every cluster operation succeeds. -/
def sampleEnv (cluster : Option RaftCluster) : Env Nat where
  getRespTS := fun n => (some ⟨100, n⟩, n + 1)
  idAllocAlloc := fun n => ((n, none), n + 1)
  getRaftCluster := fun n => ((cluster, none), n)
  bootstrapCluster := fun _ n => ((some { Bootstrap := some {} }, none), n)
  clusterGetStore := fun _ id n => ((some ⟨id⟩, none), n)
  clusterGetRegion := fun _ _ n => ((some ⟨1⟩, none), n)
  clusterGetMeta := fun c n => ((some ⟨c.Id⟩, none), n)
  clusterPutMeta := fun _ _ n => (none, n)
  clusterPutStore := fun _ _ n => (none, n)
  clusterHandleAskChangePeer := fun _ _ n => (none, n)
  clusterHandleAskSplit := fun _ _ n => (none, n)
  NewBootstrappedError := { Error := some { Message := some "cluster is already bootstrapped" } }
  handleGetMeta := fun _ n => (none, some (Err.ext 1), n)
  handlePutMeta := fun _ n => (none, some (Err.ext 2), n)

/-- A well-formed `AskSplit` request. -/
def sampleAskSplit : Request :=
  { CmdType := some CommandType.AskSplit,
    AskSplit := some { Region := some ⟨1⟩, LeaderStoreId := some 1, SplitKey := some [7] } }

/-- A well-formed `AskChangePeer` request. -/
def sampleAskChangePeer : Request :=
  { CmdType := some CommandType.AskChangePeer,
    AskChangePeer := some { Region := some ⟨1⟩, LeaderStoreId := some 1 } }

/-- Whether a wake-up makes the maintenance loop return: the keep-alive channel
is closed, or `updateTimestamp` fails. -/
def Wake.stops : Wake → Bool
  | Wake.keepAlive ok => !ok
  | Wake.tick err => err.isSome

/-- An event emitted inside the maintenance loop. -/
def Event.isLoopEvent : Event → Bool
  | Event.recvKeepAlive _ => true
  | Event.updateTimestamp _ => true
  | _ => false

/-- A transport turn that reads a `GetStore` request under message id 5. -/
def sampleTurn : Turn :=
  { read := .ok (5, { CmdType := some CommandType.GetStore, GetStore := some {} }) }

/-- A campaign in which every step succeeds, one tick passes and then the
keep-alive channel is closed. -/
def sampleCampaign : CampaignEnv :=
  { wakes := [Wake.tick none, Wake.keepAlive false] }

/-! ## Theorems -/

/-! ### `updateResponse` -/

/-- C1, counterexample: a request without header and a response that already has
one; after `updateResponse` the response still reads uuid `[1]` and cluster id 7
while the request reads the defaults. -/
theorem updateResponse_headerless_request_not_echoed :
    ¬ ((updateResponse ({} : Request)
          { Header := some { Uuid := some [1], ClusterId := some 7 } }).GetUuid
          = Request.GetUuid {} ∧
       (updateResponse ({} : Request)
          { Header := some { Uuid := some [1], ClusterId := some 7 } }).GetClusterId
          = Request.GetClusterId {}) := by
  decide

/-- C1, amended: `updateResponse` always copies the command type; it makes the
response header read the uuid and cluster id of the request whenever the request
has a header or the response has none; for a request without header the response
header is left as it was. -/
theorem updateResponse_echo (req : Request) (resp : Response) :
    (updateResponse req resp).CmdType = req.CmdType ∧
    (req.Header ≠ none ∨ resp.Header = none →
      (updateResponse req resp).GetUuid = req.GetUuid ∧
      (updateResponse req resp).GetClusterId = req.GetClusterId) ∧
    (req.Header = none → (updateResponse req resp).Header = resp.Header) := by
  refine ⟨?_, ?_, ?_⟩
  · unfold updateResponse
    cases req.Header <;> rfl
  · intro h
    unfold updateResponse Response.GetUuid Response.GetClusterId Request.GetUuid
      Request.GetClusterId
    cases hq : req.Header with
    | some hd => simp
    | none =>
      rcases h with h | h
      · exact absurd hq h
      · simp [h]
  · intro h
    unfold updateResponse
    simp [h]

/-- Witness for `updateResponse_echo`: a request with header `([9], 4)` and a
response that carried another header. -/
theorem updateResponse_echo_witness :
    (updateResponse { Header := some { Uuid := some [9], ClusterId := some 4 } }
        { Header := some { Uuid := some [1], ClusterId := some 7 } }).GetUuid = some [9] ∧
    (updateResponse { Header := some { Uuid := some [9], ClusterId := some 4 } }
        { Header := some { Uuid := some [1], ClusterId := some 7 } }).GetClusterId = 4 :=
  (updateResponse_echo { Header := some { Uuid := some [9], ClusterId := some 4 } }
    { Header := some { Uuid := some [1], ClusterId := some 7 } }).2.1 (Or.inl (by decide))

/-! ### `handleRequest` -/

/-- C3, the code at the failing inputs: a request whose command type is `GetStore`,
`GetRegion`, `GetClusterConfig`, `PutClusterConfig` or `PutStore` falls into the
`default` branch of `handleRequest`: the answer is the `unsupported command` error
and no handler and no collaborator is called; the other six listed command types
do have a `case`. -/
theorem handleRequest_typed_meta_commands_unsupported (env : Env σ) (s : σ) (req : Request) :
    Unsupported (handleRequest env { req with CmdType := some CommandType.GetStore } s) ∧
    Unsupported (handleRequest env { req with CmdType := some CommandType.GetRegion } s) ∧
    Unsupported (handleRequest env { req with CmdType := some CommandType.GetClusterConfig } s) ∧
    Unsupported (handleRequest env { req with CmdType := some CommandType.PutClusterConfig } s) ∧
    Unsupported (handleRequest env { req with CmdType := some CommandType.PutStore } s) ∧
    dispatch CommandType.Tso = some Handler.handleTso ∧
    dispatch CommandType.AllocId = some Handler.handleAllocID ∧
    dispatch CommandType.IsBootstrapped = some Handler.handleIsBootstrapped ∧
    dispatch CommandType.Bootstrap = some Handler.handleBootstrap ∧
    dispatch CommandType.AskChangePeer = some Handler.handleAskChangePeer ∧
    dispatch CommandType.AskSplit = some Handler.handleAskSplit := by
  simp [Unsupported, handleRequest, Request.GetCmdType, dispatch]

/-! ### Handlers of `command.go` -/

/-- With no cluster and no error from the server, `conn.getRaftCluster` fails with
the traced `errClusterNotBootstrapped`. -/
lemma connGetRaftCluster_of_none (env : Env σ) (s : σ)
    (h : (env.getRaftCluster s).1 = (none, none)) :
    connGetRaftCluster env s
      = (.error (Err.trace Err.clusterNotBootstrapped), (env.getRaftCluster s).2) := by
  unfold connGetRaftCluster
  rcases hg : env.getRaftCluster s with ⟨⟨c, e⟩, s1⟩
  rw [hg] at h
  simp only [Prod.mk.injEq] at h
  obtain ⟨rfl, rfl⟩ := h
  rfl

/-- With a cluster and no error from the server, `conn.getRaftCluster` returns it. -/
lemma connGetRaftCluster_of_some (env : Env σ) (s : σ) (c : RaftCluster)
    (h : (env.getRaftCluster s).1 = (some c, none)) :
    connGetRaftCluster env s = (.ok c, (env.getRaftCluster s).2) := by
  unfold connGetRaftCluster
  rcases hg : env.getRaftCluster s with ⟨⟨c1, e⟩, s1⟩
  rw [hg] at h
  simp only [Prod.mk.injEq] at h
  obtain ⟨rfl, rfl⟩ := h
  rfl

/-- C7: for a Bootstrap request with a body, an existing cluster makes
`handleBootstrap` return `NewBootstrappedError()` with a nil error and without
calling `bootstrapCluster`; `bootstrapCluster` is called exactly when
`getRaftCluster` returned neither an error nor a cluster, at most once, and its
result is then the result of the handler. -/
theorem handleBootstrap_gate (env : Env σ) (req : Request) (s : σ) (body : BootstrapRequest)
    (hb : req.Bootstrap = some body) :
    (∀ c, (env.getRaftCluster s).1 = (some c, none) →
      (handleBootstrap env req s).resp = some env.NewBootstrappedError ∧
      (handleBootstrap env req s).err = none ∧
      Call.bootstrapCluster ∉ (handleBootstrap env req s).calls) ∧
    (Call.bootstrapCluster ∈ (handleBootstrap env req s).calls ↔
      (env.getRaftCluster s).1 = (none, none)) ∧
    (handleBootstrap env req s).calls.count Call.bootstrapCluster ≤ 1 ∧
    ((env.getRaftCluster s).1 = (none, none) →
      (handleBootstrap env req s).resp
        = (env.bootstrapCluster body (env.getRaftCluster s).2).1.1 ∧
      (handleBootstrap env req s).err
        = (env.bootstrapCluster body (env.getRaftCluster s).2).1.2) := by
  unfold handleBootstrap
  rw [hb]
  rcases hg : env.getRaftCluster s with ⟨⟨c, e⟩, s1⟩
  cases c <;> cases e <;> simp

/-- Witness for `handleBootstrap_gate`: a second Bootstrap against a server that
already has cluster 1 is answered with the already-bootstrapped response. -/
theorem handleBootstrap_gate_witness :
    (handleBootstrap (sampleEnv (some ⟨1⟩)) { Bootstrap := some {} } 0).resp
        = some (sampleEnv (some ⟨1⟩)).NewBootstrappedError ∧
    (handleBootstrap (sampleEnv (some ⟨1⟩)) { Bootstrap := some {} } 0).err = none ∧
    Call.bootstrapCluster ∉ (handleBootstrap (sampleEnv (some ⟨1⟩)) { Bootstrap := some {} } 0).calls :=
  (handleBootstrap_gate (sampleEnv (some ⟨1⟩)) { Bootstrap := some {} } 0 {} rfl).1 ⟨1⟩ rfl

/-- C8: while the server has no raft cluster (`getRaftCluster` returns nil and no
error), every well-formed GetStore, GetRegion, GetClusterConfig, PutClusterConfig,
PutStore, AskChangePeer and AskSplit request gets no response and the
`errClusterNotBootstrapped` error, `getRaftCluster` being the only call made; and
`handleIsBootstrapped`, given a body, answers `false` exactly in that situation and
`true` when a cluster exists. -/
theorem not_bootstrapped_rejected (env : Env σ) (req : Request) (s : σ) :
    ((env.getRaftCluster s).1 = (none, none) →
      (req.GetStore ≠ none → NotBootstrappedResult (handleGetStore env req s)) ∧
      (req.GetRegion ≠ none → NotBootstrappedResult (handleGetRegion env req s)) ∧
      (req.GetClusterConfig ≠ none →
        NotBootstrappedResult (handleGetClusterConfig env req s)) ∧
      (req.PutClusterConfig ≠ none →
        NotBootstrappedResult (handlePutClusterConfig env req s)) ∧
      (req.PutStore ≠ none → NotBootstrappedResult (handlePutStore env req s)) ∧
      (AskChangePeerGetRegion req.AskChangePeer ≠ none →
        AskChangePeerGetLeaderStoreId req.AskChangePeer ≠ 0 →
        NotBootstrappedResult (handleAskChangePeer env req s)) ∧
      (AskSplitGetRegion req.AskSplit ≠ none →
        AskSplitGetLeaderStoreId req.AskSplit ≠ 0 →
        AskSplitGetSplitKey req.AskSplit ≠ none →
        NotBootstrappedResult (handleAskSplit env req s))) ∧
    (req.IsBootstrapped ≠ none →
      ((handleIsBootstrapped env req s).resp
          = some { IsBootstrapped := some { Bootstrapped := some false } } ↔
        (env.getRaftCluster s).1 = (none, none)) ∧
      (∀ c, (env.getRaftCluster s).1 = (some c, none) →
        (handleIsBootstrapped env req s).resp
          = some { IsBootstrapped := some { Bootstrapped := some true } } ∧
        (handleIsBootstrapped env req s).err = none)) := by
  constructor
  · intro hnc
    have hc := connGetRaftCluster_of_none env s hnc
    refine ⟨?_, ?_, ?_, ?_, ?_, ?_, ?_⟩
    · intro hb
      obtain ⟨b, hb⟩ := Option.ne_none_iff_exists'.mp hb
      simp [NotBootstrappedResult, handleGetStore, hb, hc, Err.cause]
    · intro hb
      obtain ⟨b, hb⟩ := Option.ne_none_iff_exists'.mp hb
      simp [NotBootstrappedResult, handleGetRegion, hb, hc, Err.cause]
    · intro hb
      obtain ⟨b, hb⟩ := Option.ne_none_iff_exists'.mp hb
      simp [NotBootstrappedResult, handleGetClusterConfig, hb, hc, Err.cause]
    · intro hb
      obtain ⟨b, hb⟩ := Option.ne_none_iff_exists'.mp hb
      simp [NotBootstrappedResult, handlePutClusterConfig, hb, hc, Err.cause]
    · intro hb
      obtain ⟨b, hb⟩ := Option.ne_none_iff_exists'.mp hb
      simp [NotBootstrappedResult, handlePutStore, hb, hc, Err.cause]
    · intro h1 h2
      simp [NotBootstrappedResult, handleAskChangePeer, h1, h2, hc, Err.cause]
    · intro h1 h2 h3
      simp [NotBootstrappedResult, handleAskSplit, h1, h2, h3, hc, Err.cause]
  · intro hb
    obtain ⟨b, hb⟩ := Option.ne_none_iff_exists'.mp hb
    unfold handleIsBootstrapped
    rw [hb]
    rcases hg : env.getRaftCluster s with ⟨⟨c, e⟩, s1⟩
    cases c <;> cases e <;> simp

/-- Witness for `not_bootstrapped_rejected`: a well-formed AskSplit sent to a
server without a cluster. -/
theorem not_bootstrapped_rejected_witness :
    NotBootstrappedResult (handleAskSplit (sampleEnv none) sampleAskSplit 0) :=
  (not_bootstrapped_rejected (sampleEnv none) sampleAskSplit 0).1 rfl
    |>.2.2.2.2.2.2 (by decide) (by decide) (by decide)

/-- C10: `handleAskSplit` answers a request without region, with leader store id 0
or without split key by an `errors.New` error, no response, and without any call
(so before the cluster is consulted, whether or not it is bootstrapped), and
`handleAskChangePeer` does the same for a missing region or leader store id 0; a
request that passes the checks while a cluster exists reaches
`cluster.HandleAskSplit` / `cluster.HandleAskChangePeer` exactly once, after the
single `getRaftCluster`, with the request as argument. -/
theorem ask_handlers_validate_first (env : Env σ) (req : Request) (s : σ) :
    ((AskSplitGetRegion req.AskSplit = none ∨ AskSplitGetLeaderStoreId req.AskSplit = 0 ∨
        AskSplitGetSplitKey req.AskSplit = none) →
      MissingFieldResult s (handleAskSplit env req s)) ∧
    ((AskChangePeerGetRegion req.AskChangePeer = none ∨
        AskChangePeerGetLeaderStoreId req.AskChangePeer = 0) →
      MissingFieldResult s (handleAskChangePeer env req s)) ∧
    (∀ c, (env.getRaftCluster s).1 = (some c, none) →
      AskSplitGetRegion req.AskSplit ≠ none → AskSplitGetLeaderStoreId req.AskSplit ≠ 0 →
      AskSplitGetSplitKey req.AskSplit ≠ none →
      (handleAskSplit env req s).calls = [Call.getRaftCluster, Call.clusterHandleAskSplit] ∧
      (handleAskSplit env req s).err
        = (env.clusterHandleAskSplit c req.AskSplit (env.getRaftCluster s).2).1.map Err.trace ∧
      (handleAskSplit env req s).st
        = (env.clusterHandleAskSplit c req.AskSplit (env.getRaftCluster s).2).2) ∧
    (∀ c, (env.getRaftCluster s).1 = (some c, none) →
      AskChangePeerGetRegion req.AskChangePeer ≠ none →
      AskChangePeerGetLeaderStoreId req.AskChangePeer ≠ 0 →
      (handleAskChangePeer env req s).calls
        = [Call.getRaftCluster, Call.clusterHandleAskChangePeer] ∧
      (handleAskChangePeer env req s).err
        = (env.clusterHandleAskChangePeer c req.AskChangePeer
            (env.getRaftCluster s).2).1.map Err.trace ∧
      (handleAskChangePeer env req s).st
        = (env.clusterHandleAskChangePeer c req.AskChangePeer (env.getRaftCluster s).2).2) := by
  refine ⟨?_, ?_, ?_, ?_⟩
  · intro h
    unfold MissingFieldResult handleAskSplit
    by_cases h1 : AskSplitGetRegion req.AskSplit = none
    · simp [h1]
    · by_cases h2 : AskSplitGetLeaderStoreId req.AskSplit = 0
      · simp [h1, h2]
      · have h3 : AskSplitGetSplitKey req.AskSplit = none := by tauto
        simp [h1, h2, h3]
  · intro h
    unfold MissingFieldResult handleAskChangePeer
    by_cases h1 : AskChangePeerGetRegion req.AskChangePeer = none
    · simp [h1]
    · have h2 : AskChangePeerGetLeaderStoreId req.AskChangePeer = 0 := by tauto
      simp [h1, h2]
  · intro c hc h1 h2 h3
    have hg := connGetRaftCluster_of_some env s c hc
    unfold handleAskSplit
    simp only [h1, h2, h3, if_false, hg]
    rcases hk : env.clusterHandleAskSplit c req.AskSplit (env.getRaftCluster s).2 with ⟨e, s2⟩
    cases e <;> simp
  · intro c hc h1 h2
    have hg := connGetRaftCluster_of_some env s c hc
    unfold handleAskChangePeer
    simp only [h1, h2, if_false, hg]
    rcases hk : env.clusterHandleAskChangePeer c req.AskChangePeer (env.getRaftCluster s).2
      with ⟨e, s2⟩
    cases e <;> simp

/-- Witness for `ask_handlers_validate_first`: an AskSplit request with no body at
all, sent to a server without a cluster, is rejected for the missing region. -/
theorem ask_handlers_validate_first_witness :
    MissingFieldResult 0 (handleAskSplit (sampleEnv none) {} 0) :=
  (ask_handlers_validate_first (sampleEnv none) {} 0).1 (Or.inl rfl)

/-! ### `handleTso` -/

/-- When the next `n` calls of `getRespTS` all yield a timestamp, the loop ends
with those timestamps appended in call order. -/
lemma tsoLoop_of_all_some (env : Env σ) :
    ∀ (n : Nat) (tss acc : List Timestamp) (s : σ) (cs : List Call),
      callResults env n s = tss.map some → (tsoLoop env n acc s cs).1 = some (acc ++ tss) := by
  intro n
  induction n with
  | zero =>
    intro tss acc s cs h
    cases tss with
    | nil => simp [tsoLoop]
    | cons a l => simp [callResults] at h
  | succ k ih =>
    intro tss acc s cs h
    cases tss with
    | nil => simp [callResults] at h
    | cons a l =>
      rcases hg : env.getRespTS s with ⟨r, s1⟩
      simp only [callResults, hg, List.map_cons, List.cons.injEq] at h
      obtain ⟨h1, h2⟩ := h
      subst h1
      simp only [tsoLoop, hg]
      rw [ih l (acc ++ [a]) s1 _ h2]
      simp

/-- When one of the next `n` calls of `getRespTS` yields nil, the loop ends
without a list. -/
lemma tsoLoop_of_some_none (env : Env σ) :
    ∀ (n : Nat) (acc : List Timestamp) (s : σ) (cs : List Call),
      none ∈ callResults env n s → (tsoLoop env n acc s cs).1 = none := by
  intro n
  induction n with
  | zero =>
    intro acc s cs h
    simp [callResults] at h
  | succ k ih =>
    intro acc s cs h
    rcases hg : env.getRespTS s with ⟨r, s1⟩
    simp only [callResults, hg, List.mem_cons] at h
    cases r with
    | none => simp [tsoLoop, hg]
    | some ts =>
      simp only [tsoLoop, hg]
      rcases h with h | h
      · cases h
      · exact ih _ s1 _ h

/-- C9: a Tso request without body is rejected with an error; with a body asking
for `n` timestamps, if the `n` consecutive calls of `getRespTS` yield the
timestamps `tss`, the response carries exactly `tss` (`n` entries, in call order,
so strictly increasing when `tss` is) and no error; if one of the calls yields nil,
the handler returns the `can not get timestamp` error and no response. -/
theorem handleTso_batch (env : Env σ) (req : Request) (s : σ) :
    (req.Tso = none →
      (handleTso env req s).resp = none ∧ (handleTso env req s).err ≠ none) ∧
    (∀ body, req.Tso = some body →
      (∀ tss : List Timestamp, callResults env body.GetNumber s = tss.map some →
        (handleTso env req s).resp = some { Tso := some { Timestamps := tss } } ∧
        (handleTso env req s).err = none ∧
        tss.length = body.GetNumber ∧
        (List.Chain' Timestamp.lt tss →
          ∃ r t, (handleTso env req s).resp = some r ∧ r.Tso = some t ∧
            List.Chain' Timestamp.lt t.Timestamps)) ∧
      (none ∈ callResults env body.GetNumber s →
        (handleTso env req s).resp = none ∧
        (handleTso env req s).err = some (Err.new "can not get timestamp"))) := by
  constructor
  · intro h
    simp [handleTso, h]
  · intro body hb
    constructor
    · intro tss h
      have hl := tsoLoop_of_all_some env body.GetNumber tss [] s [] h
      have hlen : tss.length = body.GetNumber := by
        have := congrArg List.length h
        rw [List.length_map] at this
        rw [← this]
        clear this h hl
        generalize body.GetNumber = n
        induction n generalizing s with
        | zero => rfl
        | succ k ih => simp [callResults, ih]
      rcases hg : tsoLoop env body.GetNumber [] s [] with ⟨r, s1, cs⟩
      rw [hg] at hl
      simp only [List.nil_append] at hl
      subst hl
      have hresp : (handleTso env req s).resp = some { Tso := some { Timestamps := tss } } := by
        simp [handleTso, hb, hg]
      refine ⟨hresp, ?_, hlen, ?_⟩
      · simp [handleTso, hb, hg]
      · intro hc
        exact ⟨_, _, hresp, rfl, hc⟩
    · intro h
      have hl := tsoLoop_of_some_none env body.GetNumber [] s [] h
      rcases hg : tsoLoop env body.GetNumber [] s [] with ⟨r, s1, cs⟩
      rw [hg] at hl
      simp only at hl
      subst hl
      simp [handleTso, hb, hg]

/-- Witness for `handleTso_batch`: `Tso{number: 3}` against the counting TSO. -/
theorem handleTso_batch_witness :
    (handleTso (sampleEnv none) { Tso := some { Number := some 3 } } 0).resp
        = some { Tso := some { Timestamps := [⟨100, 0⟩, ⟨100, 1⟩, ⟨100, 2⟩] } } ∧
    (handleTso (sampleEnv none) { Tso := some { Number := some 3 } } 0).err = none ∧
    [(⟨100, 0⟩ : Timestamp), ⟨100, 1⟩, ⟨100, 2⟩].length
        = TsoRequest.GetNumber { Number := some 3 } :=
  have h := ((handleTso_batch (sampleEnv none) { Tso := some { Number := some 3 } } 0).2
    { Number := some 3 } rfl).1 [⟨100, 0⟩, ⟨100, 1⟩, ⟨100, 2⟩] rfl
  ⟨h.1, h.2.1, h.2.2.1⟩

/-! ### `conn.run` -/

/-- The loop of `conn.run` returns only because a read, a write or a flush of some
turn failed. -/
lemma run_exit_cause (env : Env σ) (ts : List Turn) :
    ∀ (s : σ) (e : Exit), (run env ts s).exit = some e →
      ∃ t ∈ ts, (e = Exit.readFailed ∧ ∃ x, t.read = .error x) ∨
        (e = Exit.writeFailed ∧ t.writeErr ≠ none) ∨
        (e = Exit.flushFailed ∧ t.flushErr ≠ none) := by
  induction ts with
  | nil =>
    intro s e h
    simp [run] at h
  | cons t rest ih =>
    intro s e h
    have lift : (∃ t' ∈ rest, (e = Exit.readFailed ∧ ∃ x, t'.read = .error x) ∨
        (e = Exit.writeFailed ∧ t'.writeErr ≠ none) ∨
        (e = Exit.flushFailed ∧ t'.flushErr ≠ none)) →
        ∃ t' ∈ t :: rest, (e = Exit.readFailed ∧ ∃ x, t'.read = .error x) ∨
        (e = Exit.writeFailed ∧ t'.writeErr ≠ none) ∨
        (e = Exit.flushFailed ∧ t'.flushErr ≠ none) := by
      rintro ⟨t', ht', hc⟩
      exact ⟨t', List.mem_cons_of_mem _ ht', hc⟩
    unfold run at h
    split at h
    · next x hx =>
      simp only [Option.some.injEq] at h
      exact ⟨t, List.mem_cons_self _ _, Or.inl ⟨h.symm, x, hx⟩⟩
    · next m request hx =>
      simp only at h
      split at h
      · exact lift (ih _ _ h)
      · split at h
        · next w hw =>
          simp only [Option.some.injEq] at h
          exact ⟨t, List.mem_cons_self _ _, Or.inr (Or.inl ⟨h.symm, by simp [hw]⟩)⟩
        · split at h
          · next f hf =>
            simp only [Option.some.injEq] at h
            exact ⟨t, List.mem_cons_self _ _, Or.inr (Or.inr ⟨h.symm, by simp [hf]⟩)⟩
          · exact lift (ih _ _ h)

/-- C2: when a turn of `conn.run` reads a request with message id `m` and
`handleRequest` returns an error, the loop writes `NewError(err)`, updated by
`updateResponse` (error body, command type and header fields of the request), under
the same id `m`; if that write and the flush succeed the loop goes on with the next
turn; and whenever the loop returns, a read, a write or a flush has failed. -/
theorem run_reports_handler_error (env : Env σ) (t : Turn) (rest : List Turn) (s : σ)
    (m : Nat) (req : Request) (err : Err)
    (hr : t.read = .ok (m, req)) (he : (handleRequest env req s).err = some err) :
    (run env (t :: rest) s).written.head? = some (m, updateResponse req (NewError err)) ∧
    (updateResponse req (NewError err)).Error = some { Message := some err.Error } ∧
    (updateResponse req (NewError err)).CmdType = req.CmdType ∧
    (updateResponse req (NewError err)).GetUuid = req.GetUuid ∧
    (updateResponse req (NewError err)).GetClusterId = req.GetClusterId ∧
    (t.writeErr = none → t.flushErr = none →
      (run env (t :: rest) s).exit = (run env rest (handleRequest env req s).st).exit ∧
      (run env (t :: rest) s).written
        = (m, updateResponse req (NewError err))
            :: (run env rest (handleRequest env req s).st).written ∧
      (run env (t :: rest) s).st = (run env rest (handleRequest env req s).st).st) ∧
    (t.writeErr ≠ none → (run env (t :: rest) s).exit = some Exit.writeFailed) ∧
    (t.writeErr = none → t.flushErr ≠ none →
      (run env (t :: rest) s).exit = some Exit.flushFailed) ∧
    (∀ (ts : List Turn) (s0 : σ) (e : Exit), (run env ts s0).exit = some e →
      ∃ t0 ∈ ts, (e = Exit.readFailed ∧ ∃ x, t0.read = .error x) ∨
        (e = Exit.writeFailed ∧ t0.writeErr ≠ none) ∨
        (e = Exit.flushFailed ∧ t0.flushErr ≠ none)) := by
  refine ⟨?_, ?_, ?_, ?_, ?_, ?_, ?_, ?_, fun ts s0 e h => run_exit_cause env ts s0 e h⟩
  · rw [run]
    simp only [hr, he]
    cases t.writeErr <;> cases t.flushErr <;> simp
  · unfold updateResponse NewError
    cases req.Header <;> rfl
  · unfold updateResponse NewError
    cases req.Header <;> rfl
  · unfold updateResponse NewError Response.GetUuid Request.GetUuid
    cases req.Header <;> rfl
  · unfold updateResponse NewError Response.GetClusterId Request.GetClusterId
    cases req.Header <;> rfl
  · intro hw hf
    rw [run]
    simp [hr, he, hw, hf]
  · intro hw
    obtain ⟨w, hw⟩ := Option.ne_none_iff_exists'.mp hw
    rw [run]
    simp [hr, he, hw]
  · intro hw hf
    obtain ⟨f, hf⟩ := Option.ne_none_iff_exists'.mp hf
    rw [run]
    simp [hr, he, hw, hf]

/-- Witness for `run_reports_handler_error`: a `GetStore` request read under id 5
is answered under id 5 with the error response of the `default` branch. -/
theorem run_reports_handler_error_witness :
    (run (sampleEnv none) [sampleTurn] 0).written.head?
      = some (5, updateResponse { CmdType := some CommandType.GetStore, GetStore := some {} }
          (NewError (Err.new "unsupported command %s"))) :=
  (run_reports_handler_error (sampleEnv none) sampleTurn [] 0 5
    { CmdType := some CommandType.GetStore, GetStore := some {} }
    (Err.new "unsupported command %s") rfl rfl).1

/-! ### `campaignLeader` and `leaderLoop` -/

/-- If a list that starts with `A` is split at an element that does not occur in
`A`, the part before the split starts with `A`. -/
lemma starts_with_of_split {α : Type} {A R pre post : List α} {e : α}
    (h : A ++ R = pre ++ e :: post) (hA : e ∉ A) : ∃ t, pre = A ++ t := by
  rcases List.append_eq_append_iff.mp h with ⟨a1, h1, _⟩ | ⟨c1, h1, h2⟩
  · exact ⟨a1, h1⟩
  · cases c1 with
    | nil => exact ⟨[], by simpa using h1.symm⟩
    | cons x c2 =>
      simp only [List.cons_append, List.cons.injEq] at h2
      exact absurd (by rw [h1, h2.1]; simp) hA

/-- The maintenance loop only appends loop events, leaves `isLeader` alone, and
returns exactly when some wake-up stops it. -/
lemma maintain_spec (wakes : List Wake) :
    ∀ s : Server, ∃ W, (maintain wakes s).srv.log = s.log ++ W ∧
      (maintain wakes s).srv.isLeader = s.isLeader ∧
      (∀ ev ∈ W, ev.isLoopEvent = true) ∧
      (maintain wakes s).ret.isSome = wakes.any Wake.stops := by
  induction wakes with
  | nil =>
    intro s
    exact ⟨[], by simp [maintain]⟩
  | cons w rest ih =>
    intro s
    cases w with
    | keepAlive ok =>
      cases ok with
      | false =>
        exact ⟨[Event.recvKeepAlive false], by
          simp [maintain, Server.emit, Wake.stops, Event.isLoopEvent]⟩
      | true =>
        obtain ⟨W, h1, h2, h3, h4⟩ := ih (s.emit (Event.recvKeepAlive true))
        have e : maintain (Wake.keepAlive true :: rest) s = maintain rest (s.emit (Event.recvKeepAlive true)) := by
          simp [maintain]
        refine ⟨Event.recvKeepAlive true :: W, ?_, ?_, ?_, ?_⟩
        · rw [e, h1]
          simp [Server.emit]
        · rw [e, h2]
          simp [Server.emit]
        · intro ev hev
          rcases List.mem_cons.mp hev with h | h
          · subst h; rfl
          · exact h3 ev h
        · simp [maintain, h4, Wake.stops]
    | tick err =>
      cases err with
      | some e =>
        exact ⟨[Event.updateTimestamp false], by
          simp [maintain, Server.emit, Wake.stops, Event.isLoopEvent]⟩
      | none =>
        obtain ⟨W, h1, h2, h3, h4⟩ := ih (s.emit (Event.updateTimestamp true))
        have e : maintain (Wake.tick none :: rest) s = maintain rest (s.emit (Event.updateTimestamp true)) := by
          simp [maintain]
        refine ⟨Event.updateTimestamp true :: W, ?_, ?_, ?_, ?_⟩
        · rw [e, h1]
          simp [Server.emit]
        · rw [e, h2]
          simp [Server.emit]
        · intro ev hev
          rcases List.mem_cons.mp hev with h | h
          · subst h; rfl
          · exact h3 ev h
        · simp [maintain, h4, Wake.stops]

/-- The lease grant fails: nothing but `lessor.Create` and the deferred
`lessor.Close` happens. -/
lemma campaignLeader_lease_failed (env : CampaignEnv) (s : Server) (e : Err)
    (h : env.leaseCreateErr = some e) :
    campaignLeader env s = ⟨some (some (Err.trace e)),
      { isLeader := s.isLeader, log := s.log ++ [Event.lessorCreate false, Event.lessorClose] }⟩ := by
  simp [campaignLeader, h, Server.emit]

/-- The campaign transaction returns an error. -/
lemma campaignLeader_txn_error (env : CampaignEnv) (s : Server) (e : Err)
    (hl : env.leaseCreateErr = none) (h : env.txn = .error e) :
    campaignLeader env s = ⟨some (some (Err.trace e)),
      { isLeader := s.isLeader,
        log := s.log ++ [Event.lessorCreate true, Event.txnCommit none, Event.lessorClose] }⟩ := by
  simp [campaignLeader, hl, h, Server.emit]

/-- The campaign transaction commits without success: the leader key exists. -/
lemma campaignLeader_txn_lost (env : CampaignEnv) (s : Server)
    (hl : env.leaseCreateErr = none) (h : env.txn = .ok false) :
    campaignLeader env s
      = ⟨some (some (Err.new "campaign leader failed, other server may campaign ok")),
      { isLeader := s.isLeader,
        log := s.log ++ [Event.lessorCreate true, Event.txnCommit (some false),
          Event.lessorClose] }⟩ := by
  simp [campaignLeader, hl, h, Server.emit]

/-- Leadership acquired, then starting the keep-alive fails. -/
lemma campaignLeader_keepAlive_failed (env : CampaignEnv) (s : Server) (e : Err)
    (hl : env.leaseCreateErr = none) (ht : env.txn = .ok true) (h : env.keepAliveErr = some e) :
    campaignLeader env s = ⟨some (some (Err.trace e)),
      { isLeader := 0,
        log := s.log ++ [Event.lessorCreate true, Event.txnCommit (some true),
          Event.storeIsLeader 1, Event.lessorKeepAlive false, Event.storeIsLeader 0,
          Event.closeAllConnections, Event.closeClusters, Event.lessorClose] }⟩ := by
  simp [campaignLeader, hl, ht, h, Server.emit, enableLeader, closeClusters,
    closeAllConnections]

/-- Leadership acquired, keep-alive started, then `syncTimestamp` fails. -/
lemma campaignLeader_sync_failed (env : CampaignEnv) (s : Server) (e : Err)
    (hl : env.leaseCreateErr = none) (ht : env.txn = .ok true) (hk : env.keepAliveErr = none)
    (h : env.syncTimestampErr = some e) :
    campaignLeader env s = ⟨some (some (Err.trace e)),
      { isLeader := 0,
        log := s.log ++ [Event.lessorCreate true, Event.txnCommit (some true),
          Event.storeIsLeader 1, Event.lessorKeepAlive true, Event.syncTimestamp false,
          Event.storeIsLeader 0, Event.closeAllConnections, Event.closeClusters,
          Event.lessorClose] }⟩ := by
  simp [campaignLeader, hl, ht, hk, h, Server.emit, enableLeader, closeClusters,
    closeAllConnections]

/-- Leadership acquired, keep-alive and `syncTimestamp` fine: the maintenance loop
runs; the call returns exactly when a wake-up stops the loop, and then the deferred
calls run. -/
lemma campaignLeader_maintained (env : CampaignEnv) (s : Server)
    (hl : env.leaseCreateErr = none) (ht : env.txn = .ok true) (hk : env.keepAliveErr = none)
    (hs : env.syncTimestampErr = none) :
    ∃ W T, (∀ ev ∈ W, ev.isLoopEvent = true) ∧
      (campaignLeader env s).srv.log
        = s.log ++ ([Event.lessorCreate true, Event.txnCommit (some true),
            Event.storeIsLeader 1, Event.lessorKeepAlive true, Event.syncTimestamp true,
            Event.newTicker] ++ (W ++ T)) ∧
      (campaignLeader env s).ret.isSome = env.wakes.any Wake.stops ∧
      ((campaignLeader env s).ret = none ∧ T = [] ∧ (campaignLeader env s).srv.isLeader = 1 ∨
        (campaignLeader env s).ret ≠ none ∧
          T = [Event.tickerStop, Event.storeIsLeader 0, Event.closeAllConnections,
            Event.closeClusters, Event.lessorClose] ∧
          (campaignLeader env s).srv.isLeader = 0) := by
  have hc : campaignLeader env s =
      match (maintain env.wakes ⟨1, s.log ++ [Event.lessorCreate true,
          Event.txnCommit (some true), Event.storeIsLeader 1, Event.lessorKeepAlive true,
          Event.syncTimestamp true, Event.newTicker]⟩).ret with
      | none => maintain env.wakes ⟨1, s.log ++ [Event.lessorCreate true,
          Event.txnCommit (some true), Event.storeIsLeader 1, Event.lessorKeepAlive true,
          Event.syncTimestamp true, Event.newTicker]⟩
      | some e => ⟨some e, ⟨0, (maintain env.wakes ⟨1, s.log ++ [Event.lessorCreate true,
          Event.txnCommit (some true), Event.storeIsLeader 1, Event.lessorKeepAlive true,
          Event.syncTimestamp true, Event.newTicker]⟩).srv.log ++ [Event.tickerStop,
          Event.storeIsLeader 0, Event.closeAllConnections, Event.closeClusters,
          Event.lessorClose]⟩⟩ := by
    simp [campaignLeader, hl, ht, hk, hs, enableLeader, Server.emit, closeClusters,
      closeAllConnections]
  obtain ⟨W, h1, h2, h3, h4⟩ := maintain_spec env.wakes ⟨1, s.log ++ [Event.lessorCreate true,
    Event.txnCommit (some true), Event.storeIsLeader 1, Event.lessorKeepAlive true,
    Event.syncTimestamp true, Event.newTicker]⟩
  simp only at h1 h2
  rw [hc, ← h4]
  cases hr : (maintain env.wakes ⟨1, s.log ++ [Event.lessorCreate true,
      Event.txnCommit (some true), Event.storeIsLeader 1, Event.lessorKeepAlive true,
      Event.syncTimestamp true, Event.newTicker]⟩).ret with
  | none =>
    refine ⟨W, [], h3, ?_, ?_, Or.inl ⟨?_, rfl, ?_⟩⟩
    · simp only [h1]
      simp
    · simp [hr]
    · simp [hr]
    · simp only [h2]
  | some r =>
    refine ⟨W, _, h3, ?_, ?_, Or.inr ⟨?_, rfl, ?_⟩⟩
    · simp only [h1]
      simp
    · simp
    · simp
    · simp

/-- Shape of what one call of `campaignLeader` appends to the log: a failed
campaign never stores `isLeader`; a won campaign starts with the lease and the
committed transaction; the ticker and `updateTimestamp` only occur after a
successful `syncTimestamp`. -/
lemma campaignLeader_delta (env : CampaignEnv) (s : Server) :
    ∃ D, (campaignLeader env s).srv.log = s.log ++ D ∧
      ((Event.storeIsLeader 1 ∉ D ∧ (∀ ok, Event.updateTimestamp ok ∉ D) ∧
          Event.newTicker ∉ D) ∨
        (∃ R, D = [Event.lessorCreate true, Event.txnCommit (some true)] ++ R ∧
          (∀ ok, Event.updateTimestamp ok ∉ D) ∧ Event.newTicker ∉ D) ∨
        (∃ R, D = [Event.lessorCreate true, Event.txnCommit (some true),
          Event.storeIsLeader 1, Event.lessorKeepAlive true, Event.syncTimestamp true,
          Event.newTicker] ++ R)) := by
  cases hl : env.leaseCreateErr with
  | some e =>
    rw [campaignLeader_lease_failed env s e hl]
    exact ⟨_, rfl, Or.inl (by simp)⟩
  | none =>
    cases ht : env.txn with
    | error e =>
      rw [campaignLeader_txn_error env s e hl ht]
      exact ⟨_, rfl, Or.inl (by simp)⟩
    | ok b =>
      cases b with
      | false =>
        rw [campaignLeader_txn_lost env s hl ht]
        exact ⟨_, rfl, Or.inl (by simp)⟩
      | true =>
        cases hk : env.keepAliveErr with
        | some e =>
          rw [campaignLeader_keepAlive_failed env s e hl ht hk]
          exact ⟨_, rfl, Or.inr (Or.inl ⟨_, rfl, by simp⟩)⟩
        | none =>
          cases hs : env.syncTimestampErr with
          | some e =>
            rw [campaignLeader_sync_failed env s e hl ht hk hs]
            exact ⟨_, rfl, Or.inr (Or.inl ⟨_, rfl, by simp⟩)⟩
          | none =>
            obtain ⟨W, T, _, h2, _⟩ := campaignLeader_maintained env s hl ht hk hs
            exact ⟨_, h2, Or.inr (Or.inr ⟨_, rfl⟩)⟩

/-- Whenever `leaderLoop` returns, the last thing it did is `enableLeader(false)`. -/
lemma leaderLoop_returned (rounds : List Round) :
    ∀ s : Server, (leaderLoop rounds s).1 = true →
      (leaderLoop rounds s).2.isLeader = 0 ∧
      ∃ pre, (leaderLoop rounds s).2.log
        = pre ++ [Event.storeIsLeader 0, Event.closeAllConnections, Event.closeClusters] := by
  induction rounds with
  | nil =>
    intro s h
    simp [leaderLoop] at h
  | cons r rest ih =>
    intro s h
    generalize hx : leaderLoop (r :: rest) s = x at h ⊢
    rw [leaderLoop] at hx
    split at hx
    · subst hx
      exact ⟨by simp [enableLeader, closeClusters, closeAllConnections, Server.emit],
        s.log ++ [Event.wgDone], by
          simp [enableLeader, closeClusters, closeAllConnections, Server.emit]⟩
    · simp only at hx
      split at hx
      · rw [← hx] at h ⊢
        exact ih _ h
      · split at hx
        · subst hx
          simp at h
        · split at hx
          · subst hx
            simp at h
          · rw [← hx] at h ⊢
            exact ih _ h

/-- C4, counterexample: in the campaign where every step succeeds, `isLeader` is
stored as 1 right after the lease and the transaction, at a point of the log before
which no `syncTimestamp` has run. -/
theorem campaignLeader_leader_before_sync :
    ¬ (∀ pre post, (campaignLeader sampleCampaign {}).srv.log
          = pre ++ Event.storeIsLeader 1 :: post →
        Event.syncTimestamp true ∈ pre) := by
  intro h
  have h1 := h [Event.lessorCreate true, Event.txnCommit (some true)]
    [Event.lessorKeepAlive true, Event.syncTimestamp true, Event.newTicker,
      Event.updateTimestamp true, Event.recvKeepAlive false, Event.tickerStop,
      Event.storeIsLeader 0, Event.closeAllConnections, Event.closeClusters,
      Event.lessorClose] (by decide)
  revert h1
  decide

/-- C4, amended: after a won campaign `campaignLeader` stores `isLeader = 1` at
once, before the keep-alive is started and before `syncTimestamp` runs; the ticker
and every `updateTimestamp` come only after a successful `syncTimestamp`; and when
`syncTimestamp` fails the call returns that error with `isLeader` cleared and
connections and clusters closed. -/
theorem campaignLeader_leader_then_sync (env : CampaignEnv) (s : Server)
    (hl : env.leaseCreateErr = none) (ht : env.txn = .ok true) :
    (∃ post, (campaignLeader env s).srv.log
      = s.log ++ [Event.lessorCreate true, Event.txnCommit (some true),
          Event.storeIsLeader 1, Event.lessorKeepAlive env.keepAliveErr.isNone] ++ post) ∧
    (∀ e, env.keepAliveErr = none → env.syncTimestampErr = some e →
      (campaignLeader env s).ret = some (some (Err.trace e)) ∧
      (campaignLeader env s).srv.IsLeader = false ∧
      (campaignLeader env s).srv.log
        = s.log ++ [Event.lessorCreate true, Event.txnCommit (some true),
            Event.storeIsLeader 1, Event.lessorKeepAlive true, Event.syncTimestamp false,
            Event.storeIsLeader 0, Event.closeAllConnections, Event.closeClusters,
            Event.lessorClose]) ∧
    (∀ pre post ok, (campaignLeader env s).srv.log
        = s.log ++ pre ++ Event.updateTimestamp ok :: post →
      Event.syncTimestamp true ∈ pre) ∧
    (∀ pre post, (campaignLeader env s).srv.log = s.log ++ pre ++ Event.newTicker :: post →
      Event.syncTimestamp true ∈ pre) := by
  refine ⟨?_, ?_, ?_, ?_⟩
  · cases hk : env.keepAliveErr with
    | some e =>
      rw [campaignLeader_keepAlive_failed env s e hl ht hk]
      exact ⟨[Event.storeIsLeader 0, Event.closeAllConnections, Event.closeClusters,
        Event.lessorClose], by simp⟩
    | none =>
      cases hs : env.syncTimestampErr with
      | some e =>
        rw [campaignLeader_sync_failed env s e hl ht hk hs]
        exact ⟨[Event.syncTimestamp false, Event.storeIsLeader 0, Event.closeAllConnections,
          Event.closeClusters, Event.lessorClose], by simp⟩
      | none =>
        obtain ⟨W, T, _, h2, _⟩ := campaignLeader_maintained env s hl ht hk hs
        exact ⟨[Event.syncTimestamp true, Event.newTicker] ++ (W ++ T), by simp [h2]⟩
  · intro e hk hs
    rw [campaignLeader_sync_failed env s e hl ht hk hs]
    exact ⟨rfl, rfl, rfl⟩
  · intro pre post ok h
    obtain ⟨D, hD, hcase⟩ := campaignLeader_delta env s
    rw [hD, List.append_assoc] at h
    have hd := List.append_cancel_left h
    have hmem : Event.updateTimestamp ok ∈ D := by rw [hd]; simp
    rcases hcase with ⟨_, h2, _⟩ | ⟨_, _, h2, _⟩ | ⟨R, hR⟩
    · exact absurd hmem (h2 ok)
    · exact absurd hmem (h2 ok)
    · rw [hR] at hd
      obtain ⟨t, ht1⟩ := starts_with_of_split hd (by simp)
      rw [ht1]
      simp
  · intro pre post h
    obtain ⟨D, hD, hcase⟩ := campaignLeader_delta env s
    rw [hD, List.append_assoc] at h
    have hd := List.append_cancel_left h
    have hmem : Event.newTicker ∈ D := by rw [hd]; simp
    rcases hcase with ⟨_, _, h2⟩ | ⟨_, _, _, h2⟩ | ⟨R, hR⟩
    · exact absurd hmem h2
    · exact absurd hmem h2
    · have hd2 : [Event.lessorCreate true, Event.txnCommit (some true),
          Event.storeIsLeader 1, Event.lessorKeepAlive true, Event.syncTimestamp true]
          ++ (Event.newTicker :: R) = pre ++ Event.newTicker :: post := by
        rw [← hd, hR]
        simp
      obtain ⟨t, ht1⟩ := starts_with_of_split hd2 (by simp)
      rw [ht1]
      simp

/-- Witness for `campaignLeader_leader_then_sync`: the campaign in which every step
succeeds. -/
theorem campaignLeader_leader_then_sync_witness :
    ∃ post, (campaignLeader sampleCampaign {}).srv.log
      = ({} : Server).log ++ [Event.lessorCreate true, Event.txnCommit (some true),
          Event.storeIsLeader 1, Event.lessorKeepAlive sampleCampaign.keepAliveErr.isNone]
          ++ post :=
  (campaignLeader_leader_then_sync sampleCampaign {} rfl rfl).1

/-- C5: once leadership was acquired, `campaignLeader` returns exactly when the
keep-alive cannot be started, `syncTimestamp` fails, `updateTimestamp` fails or the
keep-alive channel is closed, and on each such return `IsLeader()` is false and the
log ends with the store of 0 into `isLeader`, `closeAllConnections`,
`closeClusters` (and the deferred `lessor.Close`), with no store of 1 after the one
that made the server leader; and whenever `leaderLoop` returns, `IsLeader()` is
false and the log ends with the same store and the two close calls. -/
theorem leader_exit_cleanup (env : CampaignEnv) (s : Server) (rounds : List Round) :
    (env.leaseCreateErr = none → env.txn = .ok true →
      (campaignLeader env s).ret.isSome
        = (env.keepAliveErr.isSome || env.syncTimestampErr.isSome ||
            env.wakes.any Wake.stops) ∧
      ((campaignLeader env s).ret ≠ none →
        (campaignLeader env s).srv.IsLeader = false ∧
        ∃ mid, (campaignLeader env s).srv.log
          = s.log ++ [Event.lessorCreate true, Event.txnCommit (some true),
              Event.storeIsLeader 1] ++ mid ++ [Event.storeIsLeader 0,
              Event.closeAllConnections, Event.closeClusters, Event.lessorClose] ∧
          Event.storeIsLeader 1 ∉ mid)) ∧
    ((leaderLoop rounds s).1 = true →
      (leaderLoop rounds s).2.IsLeader = false ∧
      ∃ pre, (leaderLoop rounds s).2.log
        = pre ++ [Event.storeIsLeader 0, Event.closeAllConnections, Event.closeClusters]) := by
  constructor
  · intro hl ht
    cases hk : env.keepAliveErr with
    | some e =>
      rw [campaignLeader_keepAlive_failed env s e hl ht hk]
      exact ⟨rfl, fun _ => ⟨rfl, [Event.lessorKeepAlive false], by simp, by simp⟩⟩
    | none =>
      cases hs : env.syncTimestampErr with
      | some e =>
        rw [campaignLeader_sync_failed env s e hl ht hk hs]
        exact ⟨rfl, fun _ => ⟨rfl, [Event.lessorKeepAlive true, Event.syncTimestamp false],
          by simp, by simp⟩⟩
      | none =>
        obtain ⟨W, T, h1, h2, h3, h4⟩ := campaignLeader_maintained env s hl ht hk hs
        refine ⟨by simpa using h3, fun hne => ?_⟩
        rcases h4 with ⟨h5, _, _⟩ | ⟨_, hT, hL⟩
        · exact absurd h5 hne
        · refine ⟨by simp [Server.IsLeader, hL], [Event.lessorKeepAlive true,
            Event.syncTimestamp true, Event.newTicker] ++ W ++ [Event.tickerStop], ?_, ?_⟩
          · rw [h2, hT]
            simp
          · intro hmem
            simp only [List.mem_append, List.mem_cons, List.mem_singleton,
              List.not_mem_nil, or_false, reduceCtorEq, false_or] at hmem
            have := h1 _ hmem
            simp [Event.isLoopEvent] at this
  · intro h
    obtain ⟨h1, h2⟩ := leaderLoop_returned rounds s h
    exact ⟨by simp [Server.IsLeader, h1], h2⟩

/-- Witness for `leader_exit_cleanup`: the campaign in which every step succeeds,
one tick passes and the keep-alive channel is then closed. -/
theorem leader_exit_cleanup_witness :
    (campaignLeader sampleCampaign {}).srv.IsLeader = false ∧
    ∃ mid, (campaignLeader sampleCampaign {}).srv.log
      = ({} : Server).log ++ [Event.lessorCreate true, Event.txnCommit (some true),
          Event.storeIsLeader 1] ++ mid ++ [Event.storeIsLeader 0,
          Event.closeAllConnections, Event.closeClusters, Event.lessorClose] ∧
      Event.storeIsLeader 1 ∉ mid :=
  ((leader_exit_cleanup sampleCampaign {} []).1 rfl rfl).2 (by decide)

/-- C6: when the lease grant fails, the campaign transaction returns an error, or
it commits with `Succeeded = false`, `campaignLeader` returns a non-nil error,
leaves `isLeader` as it was, and stores nothing into `isLeader`, starts no
keep-alive and runs no `syncTimestamp`; and in every execution a store of 1 into
`isLeader` comes after the successful commit of the campaign transaction. -/
theorem campaignLeader_lost_campaign (env : CampaignEnv) (s : Server) :
    ((env.leaseCreateErr ≠ none ∨ (∃ e, env.txn = .error e) ∨ env.txn = .ok false) →
      (∃ e, (campaignLeader env s).ret = some (some e)) ∧
      (campaignLeader env s).srv.isLeader = s.isLeader ∧
      ∃ D, (campaignLeader env s).srv.log = s.log ++ D ∧
        (∀ v, Event.storeIsLeader v ∉ D) ∧ (∀ ok, Event.lessorKeepAlive ok ∉ D) ∧
        (∀ ok, Event.syncTimestamp ok ∉ D)) ∧
    (∀ pre post, (campaignLeader env s).srv.log
        = s.log ++ pre ++ Event.storeIsLeader 1 :: post →
      Event.txnCommit (some true) ∈ pre) := by
  constructor
  · intro h
    cases hl : env.leaseCreateErr with
    | some e =>
      rw [campaignLeader_lease_failed env s e hl]
      exact ⟨⟨_, rfl⟩, rfl, _, rfl, by simp⟩
    | none =>
      cases ht : env.txn with
      | error e =>
        rw [campaignLeader_txn_error env s e hl ht]
        exact ⟨⟨_, rfl⟩, rfl, _, rfl, by simp⟩
      | ok b =>
        cases b with
        | false =>
          rw [campaignLeader_txn_lost env s hl ht]
          exact ⟨⟨_, rfl⟩, rfl, _, rfl, by simp⟩
        | true =>
          simp [hl, ht] at h
  · intro pre post h
    obtain ⟨D, hD, hcase⟩ := campaignLeader_delta env s
    rw [hD, List.append_assoc] at h
    have hd := List.append_cancel_left h
    have hmem : Event.storeIsLeader 1 ∈ D := by rw [hd]; simp
    rcases hcase with ⟨h2, _⟩ | ⟨R, hR, _⟩ | ⟨R, hR⟩
    · exact absurd hmem h2
    · rw [hR] at hd
      obtain ⟨t, ht1⟩ := starts_with_of_split hd (by simp)
      rw [ht1]
      simp
    · have hd2 : [Event.lessorCreate true, Event.txnCommit (some true)] ++
          ([Event.storeIsLeader 1, Event.lessorKeepAlive true, Event.syncTimestamp true,
            Event.newTicker] ++ R) = pre ++ Event.storeIsLeader 1 :: post := by
        rw [← hd, hR]
        simp
      obtain ⟨t, ht1⟩ := starts_with_of_split hd2 (by simp)
      rw [ht1]
      simp

/-- Witness for `campaignLeader_lost_campaign`: another server already holds the
leader key, so the transaction commits with `Succeeded = false`. -/
theorem campaignLeader_lost_campaign_witness :
    (∃ e, (campaignLeader { txn := .ok false } {}).ret = some (some e)) ∧
    (campaignLeader { txn := .ok false } {}).srv.isLeader = ({} : Server).isLeader ∧
    ∃ D, (campaignLeader { txn := .ok false } {}).srv.log = ({} : Server).log ++ D ∧
      (∀ v, Event.storeIsLeader v ∉ D) ∧ (∀ ok, Event.lessorKeepAlive ok ∉ D) ∧
      (∀ ok, Event.syncTimestamp ok ∉ D) :=
  (campaignLeader_lost_campaign { txn := .ok false } {}).1 (Or.inr (Or.inr rfl))

end PD
